import Mathlib

/-!
Verification of the DataSights chart specification execution engine
(backend/app/services/chart_service.py) against its natural-language
specification.

The pandas DataFrame is modelled as a list of rows, each row an association
list from column names to scalar cell values, together with the column list
and the set of columns whose pandas dtype is numeric.  Floating point cells
are modelled as rationals with an explicit NaN constructor (the engine only
ever sums, compares and copies values, so rational arithmetic is a faithful
model of the float arithmetic the claims mention).  External facilities the
engine calls but does not implement (the Python expression evaluator, the
pandas generic date parser, the calendar-period formatter) are passed in as
explicit oracle parameters.
-/

namespace DataSights

/-- A scalar cell value of the modelled DataFrame.  NaN floats and the
missing value None are separate constructors; vFloat carries finite float
values only. -/
inductive Value where
  | vNull : Value
  | vNaN : Value
  | vInt : Int → Value
  | vFloat : Rat → Value
  | vTimestamp : Int → Value
  | vStr : String → Value
deriving DecidableEq, Repr

/-- A row: mapping from column name to cell value (association list). -/
abbrev Row := List (String × Value)

/-- Cell access; a column absent from the row reads as the missing value,
matching how pandas materialises absent cells as NaN/None. -/
def Row.cell (r : Row) (c : String) : Value :=
  match r.lookup c with
  | some v => v
  | none => Value.vNull

/-- True for values pandas treats as missing (pd.isna): None and NaN. -/
def Value.isNa : Value → Bool
  | Value.vNull => true
  | Value.vNaN => true
  | _ => false

/-- The numeric view of a value when it is already a number (no string
parsing): used to state numericity hypotheses. -/
def Value.asRat? : Value → Option Rat
  | Value.vInt n => some (n : Rat)
  | Value.vFloat q => some q
  | _ => none

/-- str.lower() (over the character list, so that it evaluates by kernel
reduction). -/
def strLower (s : String) : String :=
  String.mk (s.toList.map Char.toLower)

/-- The natural number denoted by a list of decimal digits. -/
def digitsToNat (cs : List Char) : Nat :=
  cs.foldl (fun acc c => 10 * acc + (c.toNat - 48)) 0

/-- Simple decimal-integer parser, modelling the numeric strings accepted by
pandas string-to-number coercion.  (The exact string grammar pandas accepts
is wider; no claim depends on which strings parse.) -/
def parseRat? (s : String) : Option Rat :=
  if !s.toList.isEmpty && s.toList.all Char.isDigit then
    some ((digitsToNat s.toList : Nat) : Rat)
  else
    none

/-- Rational addition, written through mkRat so that it evaluates by kernel
reduction (the library addition is sealed); proved equal to it below. -/
def qAdd (a b : Rat) : Rat :=
  mkRat (a.num * b.den + b.num * a.den) (a.den * b.den)

/-- The sum of a list of rationals through qAdd. -/
def qSum (l : List Rat) : Rat :=
  l.foldr qAdd 0

/-- pd.to_numeric with errors=coerce on one cell: numbers pass through,
numeric strings parse, everything else becomes NaN (here: none). -/
def toNumeric (v : Value) : Option Rat :=
  match v with
  | Value.vInt n => some (n : Rat)
  | Value.vFloat q => some q
  | Value.vStr s => parseRat? s
  | _ => none

/-- The modelled DataFrame: column order, the columns of numeric pandas
dtype, and the rows. -/
structure DataFrame where
  cols : List String
  numericCols : List String
  rows : List Row
deriving DecidableEq, Repr

/-- pd.api.types.is_numeric_dtype for a column of the frame. -/
def DataFrame.isNumericCol (df : DataFrame) (c : String) : Bool :=
  df.numericCols.contains c

deriving instance DecidableEq for Except

/-! ## Chart specification data model (chart_models.py) -/

structure CalculationSpec where
  field_name : String
  formula : String
  description : String
deriving DecidableEq, Repr

/-- A filter literal: a scalar or a list (for in / not_in). -/
inductive FilterVal where
  | scalar : Value → FilterVal
  | vlist : List Value → FilterVal
deriving DecidableEq, Repr

structure FilterSpec where
  column : String
  operator : String
  value : FilterVal
deriving DecidableEq, Repr

/-- ChartSpec; optional python fields group_by and filters are modelled as
lists (None collapsing to the empty list, which the engine treats
identically). -/
structure ChartSpec where
  chart_type : String
  x : Option String
  y : Option String
  aggregation : String
  group_by : List String
  calculation : Option CalculationSpec
  filters : List FilterSpec
deriving DecidableEq, Repr

structure ChartValidationResult where
  is_valid : Bool
  error_message : Option String
  suggestions : List String
deriving DecidableEq, Repr

def ChartValidationResult.mkSuccess : ChartValidationResult :=
  { is_valid := true, error_message := none, suggestions := [] }

def ChartValidationResult.mkFailure (msg : String) (sugg : List String) :
    ChartValidationResult :=
  { is_valid := false, error_message := some msg, suggestions := sugg }

/-- The slice of CSVMetadata the modelled engine reads (only the column
names are ever consulted by chart_service). -/
structure CSVMetadata where
  columns : List String
deriving DecidableEq, Repr

/-! ## Filter engine (_apply_filters)

Each FilterSpec is compiled to an optional row predicate; none means the
filter is skipped (column absent, unknown operator, or the coercion of the
literal raises), matching the per-filter try/except-continue in the source.
Trace strings are omitted: they do not affect row content. -/

/-- Elementwise pandas equality between a cell and a literal: NaN compares
unequal to everything, numeric values compare across int/float. -/
def valueEq (a b : Value) : Bool :=
  match a, b with
  | Value.vNaN, _ => false
  | _, Value.vNaN => false
  | Value.vNull, Value.vNull => true
  | Value.vInt m, Value.vInt n => m == n
  | Value.vInt m, Value.vFloat q => ((m : Rat) == q)
  | Value.vFloat q, Value.vInt n => (q == (n : Rat))
  | Value.vFloat p, Value.vFloat q => p == q
  | Value.vStr s, Value.vStr t => s == t
  | Value.vTimestamp s, Value.vTimestamp t => s == t
  | _, _ => false

/-- Python float(value) applied to a filter literal; none models the
exceptions (lists, None, unparsable strings) that make the engine skip the
filter. -/
def pyFloat? : FilterVal → Option Rat
  | FilterVal.scalar (Value.vInt n) => some (n : Rat)
  | FilterVal.scalar (Value.vFloat q) => some q
  | FilterVal.scalar (Value.vStr s) => parseRat? s
  | _ => none

/-- Compile one filter to a row predicate; none = the filter is skipped. -/
def compileFilter (df : DataFrame) (f : FilterSpec) : Option (Row → Bool) :=
  if df.cols.contains f.column then
    match f.operator, f.value with
    | "==", FilterVal.scalar v =>
        some (fun r => valueEq (r.cell f.column) v)
    | "!=", FilterVal.scalar v =>
        some (fun r => !(valueEq (r.cell f.column) v))
    | ">", _ =>
        (pyFloat? f.value).map (fun q => fun r =>
          match toNumeric (r.cell f.column) with
          | some x => decide (q < x)
          | none => false)
    | ">=", _ =>
        (pyFloat? f.value).map (fun q => fun r =>
          match toNumeric (r.cell f.column) with
          | some x => decide (q ≤ x)
          | none => false)
    | "<", _ =>
        (pyFloat? f.value).map (fun q => fun r =>
          match toNumeric (r.cell f.column) with
          | some x => decide (x < q)
          | none => false)
    | "<=", _ =>
        (pyFloat? f.value).map (fun q => fun r =>
          match toNumeric (r.cell f.column) with
          | some x => decide (x ≤ q)
          | none => false)
    | "in", FilterVal.vlist vs =>
        some (fun r => vs.any (fun v => valueEq (r.cell f.column) v))
    | "not_in", FilterVal.vlist vs =>
        some (fun r => !(vs.any (fun v => valueEq (r.cell f.column) v)))
    | _, _ => none
  else
    none

/-- One pass of the filter loop body. -/
def applyOneFilter (df : DataFrame) (f : FilterSpec) : DataFrame :=
  match compileFilter df f with
  | none => df
  | some p => { df with rows := df.rows.filter p }

/-- _apply_filters: fold the filter list over the frame. -/
def applyFilters (df : DataFrame) (fs : List FilterSpec) : DataFrame :=
  fs.foldl applyOneFilter df

/-- Whether a row passes the compiled predicate of a filter (vacuously true
when the filter is skipped). -/
def filterHolds (df : DataFrame) (f : FilterSpec) (r : Row) : Bool :=
  match compileFilter df f with
  | none => true
  | some p => p r

/-! ## Structural validator (_validate_enhanced_chart_spec)

The source also receives csv_metadata but never reads it in the body; the
local suggestions list built for a non-numeric scatter x is discarded by
every return (both failure constructors below it and success() drop it), so
it is not modelled.  The concrete message strings follow the source; the
python set-ordering of the available-columns suggestion and the list repr
of group columns are rendered from the model lists. -/

def availMsg (df : DataFrame) : String :=
  "Available columns: " ++ String.intercalate ", " df.cols

def xNotFoundMsg (x : String) : String :=
  "X-axis column \x27" ++ x ++ "\x27 not found in data"

def yNotFoundMsg (y : String) : String :=
  "Y-axis column \x27" ++ y ++ "\x27 not found in data"

def groupNotFoundMsg (cols : List String) : String :=
  "Group by columns not found: " ++ String.intercalate ", " cols

def scatterYMsg (y : String) : String :=
  "Scatter plot Y-axis \x27" ++ y ++ "\x27 must be numeric"

def pieYMsg (y : String) : String :=
  "Pie chart values \x27" ++ y ++ "\x27 must be numeric"

/-- The x reference is present in the spec but absent from the frame. -/
def badX (spec : ChartSpec) (df : DataFrame) : Bool :=
  match spec.x with
  | some x => !(df.cols.contains x)
  | none => false

/-- The y reference is present in the spec but absent from the frame. -/
def badY (spec : ChartSpec) (df : DataFrame) : Bool :=
  match spec.y with
  | some y => !(df.cols.contains y)
  | none => false

/-- The group_by entries absent from the frame. -/
def invalidGroups (spec : ChartSpec) (df : DataFrame) : List String :=
  spec.group_by.filter (fun c => !(df.cols.contains c))

/-- The y reference is present and its column has non-numeric dtype. -/
def yNonNumeric (spec : ChartSpec) (df : DataFrame) : Bool :=
  match spec.y with
  | some y => !(df.isNumericCol y)
  | none => false

/-- _validate_enhanced_chart_spec: presence checks for x, y, group_by, then
the chart-type kind rules of the source (scatter: y must be numeric, a
non-numeric x only builds a discarded suggestion; pie: y must be numeric;
bar and line: no kind rule). -/
def validateEnhancedChartSpec (spec : ChartSpec) (df : DataFrame) :
    ChartValidationResult :=
  if badX spec df then
    ChartValidationResult.mkFailure (xNotFoundMsg ((spec.x).getD ""))
      [availMsg df]
  else if badY spec df then
    ChartValidationResult.mkFailure (yNotFoundMsg ((spec.y).getD ""))
      [availMsg df]
  else if !(invalidGroups spec df).isEmpty then
    ChartValidationResult.mkFailure (groupNotFoundMsg (invalidGroups spec df))
      [availMsg df]
  else if spec.chart_type == "scatter" && yNonNumeric spec df then
    ChartValidationResult.mkFailure (scatterYMsg ((spec.y).getD "")) []
  else if spec.chart_type == "pie" && yNonNumeric spec df then
    ChartValidationResult.mkFailure (pieYMsg ((spec.y).getD "")) []
  else
    ChartValidationResult.mkSuccess

/-- validate_chart_spec (legacy): builds pd.DataFrame(columns=metadata.columns),
an empty frame whose columns all get object dtype, hence no numeric column. -/
def dummyDataFrame (md : CSVMetadata) : DataFrame :=
  { cols := md.columns, numericCols := [], rows := [] }

def validateChartSpec (spec : ChartSpec) (md : CSVMetadata) :
    ChartValidationResult :=
  validateEnhancedChartSpec spec (dummyDataFrame md)

/-! ## Expression evaluator stage (_apply_calculated_field, _safe_calculate)

The regular expression word-boundary identifier scan is modelled as the
maximal runs of word characters that start with a letter or underscore.
The Python eval of the sandboxed formula is not embeddable; it is passed in
as an oracle producing either the column of results or the message of the
exception it raised.  Everything around it — the identifier scan, the
(dead) missing-column check, the unsafe-token denylist, and the exception
wrapping — is translated from the source. -/

def isWordChar (c : Char) : Bool :=
  ('a' ≤ c && c ≤ 'z') || ('A' ≤ c && c ≤ 'Z') || ('0' ≤ c && c ≤ '9') || c == '_'

/-- Maximal runs of word characters of a string. -/
def wordRunsAux : List Char → List Char → List String
  | [], acc => if acc.isEmpty then [] else [String.mk acc.reverse]
  | c :: cs, acc =>
      if isWordChar c then
        wordRunsAux cs (c :: acc)
      else if acc.isEmpty then
        wordRunsAux cs []
      else
        String.mk acc.reverse :: wordRunsAux cs []

def wordRuns (s : String) : List String :=
  wordRunsAux s.toList []

/-- re.findall of the identifier pattern: word runs whose first character is
a letter or underscore (a run led by a digit has no word boundary before a
later letter, so it yields no match). -/
def identifierTokens (s : String) : List String :=
  (wordRuns s).filter (fun t =>
    match t.toList with
    | [] => false
    | c :: _ => ('a' ≤ c && c ≤ 'z') || ('A' ≤ c && c ≤ 'Z') || c == '_')

def operatorsKeywords : List String :=
  ["and", "or", "not", "if", "else", "true", "false", "sum", "mean", "min", "max"]

/-- The formula tokens kept as actual column references: already filtered to
members of df.columns that are not reserved keywords. -/
def actualColumns (df : DataFrame) (formula : String) : List String :=
  (identifierTokens formula).filter (fun c =>
    df.cols.contains c && !(operatorsKeywords.contains (strLower c)))

/-- The missing-column computation of the source: it re-filters
actualColumns — a list built only from members of df.columns — for
non-membership in df.columns. -/
def missingColumns (df : DataFrame) (formula : String) : List String :=
  (actualColumns df formula).filter (fun c => !(df.cols.contains c))

def dangerousPatterns : List String :=
  ["import", "exec", "eval", "__", "open", "file", "input", "raw_input"]

/-- pat occurs at the head of hay. -/
def charsStartWith : List Char → List Char → Bool
  | [], _ => true
  | _ :: _, [] => false
  | p :: ps, h :: hs => p == h && charsStartWith ps hs

/-- pat occurs contiguously somewhere in hay (python substring test). -/
def charsContain (hay pat : List Char) : Bool :=
  match hay with
  | [] => pat.isEmpty
  | _ :: t => charsStartWith pat hay || charsContain t pat

/-- The unsafe-token test of _safe_calculate: a case-insensitive substring
scan of the whole formula. -/
def dangerousCheck (formula : String) : Bool :=
  dangerousPatterns.any (fun p => charsContain ((strLower formula).toList) p.toList)

/-- The oracle standing for the sandboxed Python eval: given the coerced
frame, the formula and the referenced columns, it returns the column of
results or the message of the exception eval raised. -/
abbrev EvalOracle := DataFrame → String → List String → Except String (List Value)

/-- _safe_calculate: the denylist test guards the oracle; every exception
message is re-wrapped by the except clause of the source. -/
def safeCalculate (df : DataFrame) (formula : String) (columns : List String)
    (oracle : EvalOracle) : Except String (List Value) :=
  let inner : Except String (List Value) :=
    if dangerousCheck formula then
      Except.error "Unsafe operation detected in formula"
    else
      oracle df formula columns
  match inner with
  | Except.error e => Except.error ("Formula evaluation failed: " ++ e)
  | Except.ok vs => Except.ok vs

/-- Update one cell of a row (order of the association list is irrelevant to
cell lookup). -/
def Row.setCell (r : Row) (c : String) (v : Value) : Row :=
  r.filter (fun p => p.1 ≠ c) ++ [(c, v)]

/-- df[field] = series: write the computed column into the frame. -/
def dfWithColumn (df : DataFrame) (field : String) (vals : List Value) :
    DataFrame :=
  { df with
    cols := if df.cols.contains field then df.cols else df.cols ++ [field],
    rows := (df.rows.zip vals).map (fun p => p.1.setCell field p.2) }

/-- _apply_calculated_field.  A failure inside the try block is caught by
its except clause and re-raised as a ValidationException whose message
wraps the inner one; that wrapped message is the error value here. -/
def applyCalculatedField (df : DataFrame) (cs : CalculationSpec)
    (oracle : EvalOracle) : Except String DataFrame :=
  let missing := missingColumns df cs.formula
  let inner : Except String DataFrame :=
    if !missing.isEmpty then
      Except.error ("Columns not found for calculation: " ++
        String.intercalate ", " missing)
    else
      match safeCalculate df cs.formula (actualColumns df cs.formula)
          oracle with
      | Except.error e => Except.error e
      | Except.ok vs => Except.ok (dfWithColumn df cs.field_name vs)
  match inner with
  | Except.error e =>
      Except.error ("Failed to calculate " ++ cs.field_name ++ ": " ++ e)
  | Except.ok d => Except.ok d

/-! ## Time-period extractor (_handle_time_grouping, _find_date_column)

pd.to_datetime is external; it is modelled by an oracle predicate gp giving,
per value, whether the generic parse succeeds.  The per-keyword period
derivation (strftime / dt.year / to_period) is likewise a frame-transforming
oracle: the claims about this stage concern only column selection and the
no-op branch. -/

/-- df[col].dropna().head(10): the sample _find_date_column parses. -/
def sampleNonNull (rows : List Row) (c : String) : List Value :=
  ((rows.map (fun r => r.cell c)).filter (fun v => !v.isNa)).take 10

/-- The acceptance test of the source loop body: the sample is non-empty and
pd.to_datetime(sample, errors=raise) raises no error, i.e. the generic
parse succeeds on every sampled value. -/
def dateColAccept (df : DataFrame) (gp : Value → Bool) (c : String) : Bool :=
  !(sampleNonNull df.rows c).isEmpty && (sampleNonNull df.rows c).all gp

/-- _find_date_column: first column in column order passing the test. -/
def findDateColumn (df : DataFrame) (gp : Value → Bool) : Option String :=
  df.cols.find? (dateColAccept df gp)

/-- Modelled from the spec (for comparison only): the acceptance rule §4.2
claims — a curated list of explicit date formats parses all sampled values,
or the generic parse succeeds on at least 70 percent of the sample. -/
def specDateAccept (df : DataFrame) (curated gp : Value → Bool) (c : String) :
    Bool :=
  let s := sampleNonNull df.rows c
  !s.isEmpty && (s.all curated || decide (7 * s.length ≤ 10 * (s.filter gp).length))

/-- The four period keywords the x reference is scanned for. -/
def periodKeywords : List String := ["month", "year", "quarter", "week"]

/-- any(period in chart_spec.x.lower() for period in ...). -/
def hasPeriodKeyword (x : String) : Bool :=
  periodKeywords.any (fun p => charsContain ((strLower x).toList) p.toList)

/-- _handle_time_grouping.  derive stands for the strftime-based period
column construction from the located date column; the claims about this
stage only constrain the branch where no date column is found. -/
def handleTimeGrouping (df : DataFrame) (spec : ChartSpec)
    (gp : Value → Bool) (derive : DataFrame → String → String → DataFrame) :
    DataFrame :=
  match spec.x with
  | none => df
  | some x =>
      if hasPeriodKeyword x then
        match findDateColumn df gp with
        | none => df
        | some dc => derive df dc x
      else
        df

/-! ## Aggregation engine (_apply_enhanced_aggregation)

pandas groupby with the default dropna=True drops every row whose key
contains a missing value, and sorts group keys; the group order is modelled
as first-occurrence order since no claim concerns it.  When y is itself one
of the grouping columns, reset_index raises (cannot insert an existing
column); the except clause of the source then returns the frame — with the
in-place to_numeric coercion of y already applied — unchanged otherwise. -/

/-- The key of a row for a list of grouping columns. -/
def Row.keyOf (r : Row) (cols : List String) : List Value :=
  cols.map (fun c => r.cell c)

/-- A key pandas keeps (groupby dropna drops keys containing NaN or None). -/
def keyIsValid (k : List Value) : Bool :=
  k.all (fun v => !v.isNa)

/-- The rows groupby actually groups. -/
def groupedRows (rows : List Row) (cols : List String) : List Row :=
  rows.filter (fun r => keyIsValid (r.keyOf cols))

/-- The distinct keys, in first-occurrence order. -/
def groupKeys (rows : List Row) (cols : List String) : List (List Value) :=
  ((groupedRows rows cols).map (fun r => r.keyOf cols)).dedup

/-- The rows of one group. -/
def rowsOfKey (rows : List Row) (cols : List String) (k : List Value) :
    List Row :=
  (groupedRows rows cols).filter (fun r => r.keyOf cols == k)

/-- The grouping key columns: group_by entries, then x if not already among
them, kept only when truthy and present in the frame. -/
def aggGroupCols (df : DataFrame) (spec : ChartSpec) : List String :=
  (spec.group_by ++
    (match spec.x with
     | some x => if spec.group_by.contains x then [] else [x]
     | none => [])).filter (fun c => c ≠ "" && df.cols.contains c)

/-- In-place df[y] = pd.to_numeric(df[y], errors=coerce). -/
def coerceColNumeric (df : DataFrame) (y : String) : DataFrame :=
  { df with
    rows := df.rows.map (fun r =>
      r.setCell y (match toNumeric (r.cell y) with
        | some q => Value.vFloat q
        | none => Value.vNaN)) }

/-- The numeric values a pandas reduction sees in one group (NaN skipped). -/
def groupNumericVals (rows : List Row) (cols : List String) (y : String)
    (k : List Value) : List Rat :=
  (rowsOfKey rows cols k).filterMap (fun r => toNumeric (r.cell y))

/-- The named reduction; every unrecognized name defaults to sum; an
all-NaN group reduces to NaN under min/max and mean, to 0 under sum,
matching pandas NaN-skipping reductions. -/
def aggApply (fn : String) (vals : List Rat) : Value :=
  if fn == "mean" then
    match vals with
    | [] => Value.vNaN
    | _ => Value.vFloat (qSum vals / (vals.length : Rat))
  else if fn == "min" then
    match vals with
    | [] => Value.vNaN
    | v :: vs => Value.vFloat (vs.foldl min v)
  else if fn == "max" then
    match vals with
    | [] => Value.vNaN
    | v :: vs => Value.vFloat (vs.foldl max v)
  else
    Value.vFloat (qSum vals)

/-- groupby(group_cols).size().reset_index(name=count). -/
def countAggregate (df : DataFrame) (gcols : List String) : DataFrame :=
  { cols := gcols ++ ["count"],
    numericCols := df.numericCols ++ ["count"],
    rows := (groupKeys df.rows gcols).map (fun k =>
      gcols.zip k ++ [("count", Value.vInt (rowsOfKey df.rows gcols k).length)]) }

/-- groupby(group_cols)[y].agg(fn).reset_index() on the coerced frame. -/
def numericAggregate (df : DataFrame) (gcols : List String) (y : String)
    (fn : String) : DataFrame :=
  { cols := gcols ++ [y],
    numericCols := df.numericCols ++ [y],
    rows := (groupKeys df.rows gcols).map (fun k =>
      gcols.zip k ++ [(y, aggApply fn (groupNumericVals df.rows gcols y k))]) }

/-- _apply_enhanced_aggregation: returns the resulting frame together with
the chart spec as left behind by the stage (the source mutates the shared
spec object when counting). -/
def applyEnhancedAggregation (df : DataFrame) (spec : ChartSpec) :
    DataFrame × ChartSpec :=
  if spec.aggregation == "none" && spec.group_by.isEmpty then
    (df, spec)
  else
    let gcols := aggGroupCols df spec
    if gcols.isEmpty then
      (df, spec)
    else if spec.aggregation == "count" then
      (countAggregate df gcols, { spec with y := some "count" })
    else
      match spec.y with
      | none => (df, spec)
      | some y =>
          if df.cols.contains y then
            let coerced := coerceColNumeric df y
            if gcols.contains y then
              -- reset_index raises; the except clause returns the frame,
              -- which already carries the in-place coercion of y
              (coerced, spec)
            else
              (numericAggregate coerced gcols y spec.aggregation, spec)
          else
            (df, spec)

/-- The NaN-skipping sum of a column over a frame, used to state the
conservation property. -/
def colSum (df : DataFrame) (y : String) : Rat :=
  qSum (df.rows.filterMap (fun r => toNumeric (r.cell y)))

/-! ## Output formatter (_format_pie_chart_data, _format_standard_chart_data,
_format_value_for_json)

The two configuration constants of the service constructor. -/

def maxDataPoints : Nat := 1000

def maxCategories : Nat := 50

/-- Abstract rendering of Timestamp.isoformat(); the exact ISO-8601 text is
irrelevant to every claim — only that the result is a string. -/
def isoFormat (t : Int) : String :=
  "iso-" ++ toString t

/-- Python str() of a cell; the numeric and timestamp renderings are
abstracted (no claim depends on their exact text, only on stringness). -/
def pyStr : Value → String
  | Value.vNull => "None"
  | Value.vNaN => "nan"
  | Value.vInt n => toString n
  | Value.vFloat q => toString q
  | Value.vTimestamp t => isoFormat t
  | Value.vStr s => s

/-- Python float() of a cell for the pie value; none models the exceptions
(non-numeric strings, timestamps).  Python would additionally accept the
strings nan and inf, but pie formatting only runs after the validator has
required numeric dtype for y, so such cells cannot reach this call. -/
def pyFloatOfCell? : Value → Option Rat
  | Value.vInt n => some (n : Rat)
  | Value.vFloat q => some q
  | Value.vStr s => parseRat? s
  | _ => none

/-- The sort key nlargest uses for an index-tagged row. -/
def pieYVal (yc : String) (p : Nat × Row) : Rat :=
  (toNumeric ((p.2).cell yc)).getD 0

/-- The strict-then-stable order of pandas nlargest(keep=first): larger y
first, ties resolved toward the earlier original position. -/
def PieRel (yc : String) (a b : Nat × Row) : Prop :=
  pieYVal yc b < pieYVal yc a ∨ (pieYVal yc a = pieYVal yc b ∧ a.1 ≤ b.1)

instance (yc : String) : DecidableRel (PieRel yc) := fun a b => by
  unfold PieRel
  exact inferInstance

instance (yc : String) : IsTotal (Nat × Row) (PieRel yc) where
  total a b := by
    unfold PieRel
    rcases lt_trichotomy (pieYVal yc a) (pieYVal yc b) with h | h | h
    · exact Or.inr (Or.inl h)
    · rcases Nat.le_total a.1 b.1 with hi | hi
      · exact Or.inl (Or.inr ⟨h, hi⟩)
      · exact Or.inr (Or.inr ⟨h.symm, hi⟩)
    · exact Or.inl (Or.inl h)

instance (yc : String) : IsTrans (Nat × Row) (PieRel yc) where
  trans a b c hab hbc := by
    unfold PieRel at hab hbc ⊢
    rcases hab with hab | ⟨hab, ha⟩
    · rcases hbc with hbc | ⟨hbc, _⟩
      · exact Or.inl (lt_trans hbc hab)
      · exact Or.inl (hbc ▸ hab)
    · rcases hbc with hbc | ⟨hbc, hb⟩
      · exact Or.inl (hab ▸ hbc)
      · exact Or.inr ⟨hab.trans hbc, ha.trans hb⟩

/-- df.nlargest(n, yc) over index-tagged rows: rows whose sort key is NaN
are dropped, the rest ordered by value descending with earlier rows
preferred on ties, and the first n kept. -/
def nlargestIdx (n : Nat) (yc : String) (indexed : List (Nat × Row)) :
    List (Nat × Row) :=
  (List.insertionSort (PieRel yc)
    (indexed.filter (fun p => (toNumeric ((p.2).cell yc)).isSome))).take n

/-- df.nlargest(maxCategories - 1, y) applied to the index-tagged rows. -/
def pieTop (df : DataFrame) (yc : String) : List (Nat × Row) :=
  nlargestIdx (maxCategories - 1) yc df.rows.enum

/-- df[~df.index.isin(df_top.index)]: the rows nlargest did not keep, in
original order. -/
def pieExcluded (df : DataFrame) (yc : String) : List (Nat × Row) :=
  df.rows.enum.filter (fun p => !(((pieTop df yc).map Prod.fst).contains p.1))

/-- The NaN-skipping pandas sum of y over the excluded rows. -/
def pieExcludedSum (df : DataFrame) (yc : String) : Rat :=
  qSum ((pieExcluded df yc).filterMap (fun p => toNumeric ((p.2).cell yc)))

/-- The same sum over the kept rows (used to state mass conservation). -/
def pieTopSum (df : DataFrame) (yc : String) : Rat :=
  qSum ((pieTop df yc).filterMap (fun p => toNumeric ((p.2).cell yc)))

/-- The synthesized Others row, built like the one-row frame of the source
(a python dict, so a repeated x = y key keeps the last value). -/
def othersRow (xc yc : String) (v : Rat) : Row :=
  Row.setCell [(xc, Value.vStr "Others")] yc (Value.vFloat v)

/-- The category-limiting step of _format_pie_chart_data: on more than
maxCategories rows keep the top maxCategories - 1 by y and append the
Others row when the excluded sum is positive.  nlargest raises on a
non-numeric dtype column; that exception propagates out of the formatter. -/
def pieLimitRows (df : DataFrame) (xc yc : String) : Except String (List Row) :=
  if df.rows.length > maxCategories then
    if df.isNumericCol yc then
      if 0 < pieExcludedSum df yc then
        Except.ok ((pieTop df yc).map Prod.snd ++
          [othersRow xc yc (pieExcludedSum df yc)])
      else
        Except.ok ((pieTop df yc).map Prod.snd)
    else
      Except.error "nlargest requires a numeric sort column"
  else
    Except.ok df.rows

/-- One emitted pie record: name is str(x), value is float(y) guarded by
pd.notna (missing y emits the integer 0). -/
def piePoint (xc yc : String) (r : Row) : Except String Row :=
  if (r.cell yc).isNa then
    Except.ok [("name", Value.vStr (pyStr (r.cell xc))), ("value", Value.vInt 0)]
  else
    match pyFloatOfCell? (r.cell yc) with
    | some q =>
        Except.ok [("name", Value.vStr (pyStr (r.cell xc))),
          ("value", Value.vFloat q)]
    | none => Except.error "could not convert value to float"

/-- The emitting comprehension of _format_pie_chart_data: stops at the
first row whose conversion raises. -/
def mapPiePoints (xc yc : String) : List Row → Except String (List Row)
  | [] => Except.ok []
  | r :: rs =>
      match piePoint xc yc r with
      | Except.error e => Except.error e
      | Except.ok p =>
          match mapPiePoints xc yc rs with
          | Except.error e => Except.error e
          | Except.ok ps => Except.ok (p :: ps)

/-- _format_pie_chart_data. -/
def formatPieChartData (spec : ChartSpec) (df : DataFrame) :
    Except String (List Row) :=
  match spec.x, spec.y with
  | some xc, some yc =>
      match pieLimitRows df xc yc with
      | Except.error e => Except.error e
      | Except.ok rs => mapPiePoints xc yc rs
  | _, _ => Except.ok []

/-- _format_value_for_json: missing values to null, numpy numbers to python
numbers, timestamps to ISO strings, everything else through str(). -/
def formatValueForJson : Value → Value
  | Value.vNull => Value.vNull
  | Value.vNaN => Value.vNull
  | Value.vInt n => Value.vInt n
  | Value.vFloat q => Value.vFloat q
  | Value.vTimestamp t => Value.vStr (isoFormat t)
  | Value.vStr s => Value.vStr s

/-- chart_spec.x in row: index membership of the label in the row. -/
def rowHas (r : Row) (c : String) : Bool :=
  (r.lookup c).isSome

/-- The optional x or y field of one standard record: emitted only when the
reference is set and the label is present on the row. -/
def optField (o : Option String) (r : Row) : Row :=
  match o with
  | some x => if rowHas r x then [(x, formatValueForJson (r.cell x))] else []
  | none => []

/-- The group_by fields of one standard record. -/
def groupFields (gs : List String) (r : Row) : Row :=
  gs.filterMap (fun g =>
    if rowHas r g then some (g, formatValueForJson (r.cell g)) else none)

/-- _format_standard_chart_data: one record per row with the x, y and
group_by fields that are present on the row, all JSON-coerced. -/
def formatStandardChartData (spec : ChartSpec) (df : DataFrame) : List Row :=
  df.rows.map (fun r =>
    optField spec.x r ++ optField spec.y r ++ groupFields spec.group_by r)

/-- _generate_chart_specific_data. -/
def generateChartSpecificData (spec : ChartSpec) (df : DataFrame) :
    Except String (List Row) :=
  if spec.chart_type == "pie" then
    formatPieChartData spec df
  else
    Except.ok (formatStandardChartData spec df)

/-- A value the JSON layer accepts: null, a (non-NaN) number, or a string. -/
def isJsonSafe : Value → Bool
  | Value.vNull => true
  | Value.vInt _ => true
  | Value.vFloat _ => true
  | Value.vStr _ => true
  | Value.vNaN => false
  | Value.vTimestamp _ => false

/-- Every field of every emitted record is JSON-safe. -/
def allJsonSafe (out : List Row) : Bool :=
  out.all (fun r => r.all (fun p => isJsonSafe p.2))

/-! ## Concrete fixtures for counterexamples and witnesses -/

/-- The spec fixture frame: region is categorical, units_sold numeric. -/
def exDfA : DataFrame :=
  { cols := ["region", "units_sold"],
    numericCols := ["units_sold"],
    rows := [
      [("region", Value.vStr "North"), ("units_sold", Value.vInt 10)],
      [("region", Value.vStr "South"), ("units_sold", Value.vInt 15)]] }

def exMdA : CSVMetadata :=
  { columns := ["region", "units_sold"] }

/-- scatter x=region (categorical), y=units_sold (numeric). -/
def scatterSpecA : ChartSpec :=
  { chart_type := "scatter", x := some "region", y := some "units_sold",
    aggregation := "none", group_by := [], calculation := none, filters := [] }

/-- pie spec over the fixture columns, used against the dummy frame. -/
def pieSpecA : ChartSpec :=
  { chart_type := "pie", x := some "region", y := some "units_sold",
    aggregation := "none", group_by := [], calculation := none, filters := [] }

/-- An in-filter on region, as in spec scenario 4. -/
def inFilterA : FilterSpec :=
  { column := "region", operator := "in",
    value := FilterVal.vlist [Value.vStr "North"] }

/-- One pie row of the large fixture. -/
def c2Row (i : Nat) : Row :=
  [("cat", Value.vStr (toString i)), ("val", Value.vInt 10)]

/-- 51 pie rows: 49 rows of value 10 and two rows whose values sum to -3,
so the excluded sum is negative. -/
def c2Df : DataFrame :=
  { cols := ["cat", "val"],
    numericCols := ["val"],
    rows := (List.range 49).map c2Row ++ [
      [("cat", Value.vStr "nega"), ("val", Value.vInt (-1))],
      [("cat", Value.vStr "negb"), ("val", Value.vInt (-2))]] }

def c2Spec : ChartSpec :=
  { chart_type := "pie", x := some "cat", y := some "val",
    aggregation := "none", group_by := [], calculation := none, filters := [] }

/-- 52 pie rows with a positive excluded sum, for the amended-claim witness. -/
def c2wDf : DataFrame :=
  { cols := ["cat", "val"],
    numericCols := ["val"],
    rows := (List.range 50).map c2Row ++ [
      [("cat", Value.vStr "smalla"), ("val", Value.vInt 1)],
      [("cat", Value.vStr "smallb"), ("val", Value.vInt 2)]] }

/-- bar chart over a frame holding a timestamp, a NaN and a null cell. -/
def c4Df : DataFrame :=
  { cols := ["when", "amount", "tag"],
    numericCols := ["amount"],
    rows := [
      [("when", Value.vTimestamp 5), ("amount", Value.vNaN), ("tag", Value.vStr "a")],
      [("when", Value.vNull), ("amount", Value.vInt 7), ("tag", Value.vFloat (mkRat 3 2))]] }

def c4Spec : ChartSpec :=
  { chart_type := "bar", x := some "when", y := some "amount",
    aggregation := "none", group_by := ["tag"], calculation := none,
    filters := [] }

def c5Df : DataFrame :=
  { cols := ["a"], numericCols := ["a"], rows := [[("a", Value.vInt 1)]] }

/-- A formula referencing two columns that are not in the frame. -/
def c5Calc : CalculationSpec :=
  { field_name := "f2", formula := "foo + bar", description := "d" }

/-- The eval oracle modelling the Python NameError the sandbox raises on the
first unresolved identifier (it names only that one). -/
def c5Oracle : EvalOracle :=
  fun _ _ _ => Except.error "name \x27foo\x27 is not defined"

/-- A frame with a null grouping key in the first row. -/
def c6Df : DataFrame :=
  { cols := ["k", "y"],
    numericCols := ["y"],
    rows := [
      [("k", Value.vNull), ("y", Value.vInt 5)],
      [("k", Value.vStr "a"), ("y", Value.vInt 3)]] }

def c6Spec : ChartSpec :=
  { chart_type := "bar", x := none, y := some "y",
    aggregation := "sum", group_by := ["k"], calculation := none, filters := [] }

/-- The same frame with every key present, for the amended-claim witness. -/
def c6wDf : DataFrame :=
  { cols := ["k", "y"],
    numericCols := ["y"],
    rows := [
      [("k", Value.vStr "b"), ("y", Value.vInt 5)],
      [("k", Value.vStr "a"), ("y", Value.vInt 3)],
      [("k", Value.vStr "a"), ("y", Value.vInt 4)]] }

/-- Generic-parse oracle of the date fixtures: only the string 2024 parses. -/
def c7Gp : Value → Bool :=
  fun v => v == Value.vStr "2024"

/-- Curated-format oracle: no format list exists in the code, none parses. -/
def c7Curated : Value → Bool :=
  fun _ => false

/-- One column of 10 values of which exactly 7 parse generically: at the 70
percent threshold, yet rejected by the code. -/
def c7Df : DataFrame :=
  { cols := ["d"],
    numericCols := [],
    rows :=
      (List.range 7).map (fun _ => [("d", Value.vStr "2024")]) ++
      (List.range 3).map (fun _ => [("d", Value.vStr "junk")]) }

/-- A column all of whose sampled values parse, for the witness. -/
def c7wDf : DataFrame :=
  { cols := ["n", "d"],
    numericCols := [],
    rows := [
      [("n", Value.vStr "junk"), ("d", Value.vStr "2024")],
      [("n", Value.vStr "junk"), ("d", Value.vStr "2024")]] }

def c8Df : DataFrame :=
  { cols := ["g", "units"],
    numericCols := ["units"],
    rows := [[("g", Value.vStr "a"), ("units", Value.vInt 1)]] }

/-- count aggregation with a caller-supplied y. -/
def c8Spec : ChartSpec :=
  { chart_type := "bar", x := none, y := some "units",
    aggregation := "count", group_by := ["g"], calculation := none,
    filters := [] }

def c10Df : DataFrame :=
  { cols := ["profile"], numericCols := ["profile"], rows := [] }

/-- A legitimate column reference whose name contains the denylisted token
file as a substring. -/
def c10Calc : CalculationSpec :=
  { field_name := "f", formula := "profile * 2", description := "d" }

/-- An eval oracle that would succeed, showing the rejection happens before
evaluation. -/
def c10Oracle : EvalOracle :=
  fun _ _ _ => Except.ok []

/-! ## Helper lemmas -/

lemma applyOneFilter_sublist (df : DataFrame) (f : FilterSpec) :
    (applyOneFilter df f).rows.Sublist df.rows := by
  unfold applyOneFilter
  cases compileFilter df f
  · exact List.Sublist.refl _
  · exact List.filter_sublist _

lemma applyOneFilter_all_holds (df : DataFrame) (f : FilterSpec) :
    ((applyOneFilter df f).rows.all (filterHolds df f)) = true := by
  unfold applyOneFilter filterHolds
  cases compileFilter df f with
  | none => simp
  | some p =>
      rw [List.all_eq_true]
      intro r hr
      exact (List.mem_filter.mp hr).2

lemma applyFilters_length_le (df : DataFrame) (fs : List FilterSpec) :
    (applyFilters df fs).rows.length ≤ df.rows.length := by
  induction fs generalizing df with
  | nil => exact Nat.le_refl _
  | cons f fs ih =>
      exact Nat.le_trans (ih (applyOneFilter df f))
        ((applyOneFilter_sublist df f).length_le)

/-- The dead missing-column check: actualColumns only keeps members of
df.cols, so re-filtering for non-membership yields nothing. -/
lemma missingColumns_eq_nil (df : DataFrame) (formula : String) :
    missingColumns df formula = [] := by
  unfold missingColumns actualColumns
  rw [List.filter_filter]
  rw [List.filter_eq_nil_iff]
  intro a _
  cases hc : df.cols.contains a <;> simp [hc]

/-! ## C3: filter soundness -/

/-- C3: each filter application yields a subset of the rows it received, every
kept row satisfies the compiled predicate of the applied filter (skipped
filters constrain nothing), and the row count never increases across the
fold over the filter list. -/
theorem filter_engine_sound (df : DataFrame) (f : FilterSpec)
    (fs : List FilterSpec) :
    (applyOneFilter df f).rows.Sublist df.rows ∧
    ((applyOneFilter df f).rows.all (filterHolds df f)) = true ∧
    (applyFilters df fs).rows.length ≤ df.rows.length :=
  ⟨applyOneFilter_sublist df f, applyOneFilter_all_holds df f,
    applyFilters_length_le df fs⟩

/-- Witness for C3 at the fixture frame and the in-filter of spec scenario 4. -/
theorem filter_engine_sound_witness :
    (applyOneFilter exDfA inFilterA).rows.Sublist exDfA.rows ∧
    ((applyOneFilter exDfA inFilterA).rows.all (filterHolds exDfA inFilterA)) = true ∧
    (applyFilters exDfA [inFilterA]).rows.length ≤ exDfA.rows.length :=
  filter_engine_sound exDfA inFilterA [inFilterA]

/-! ## C5: the missing-column error of the calculation stage cannot fire -/

/-- C5: the source computes its missing-column list by re-filtering a list
already restricted to existing columns, so the list is always empty and the
promised ValidationError naming every missing column is dead code; on the
formula foo + bar against a frame with only column a, both identifiers are
extracted yet the stage instead surfaces the wrapped evaluation failure of
the sandbox, which names only the first unresolved identifier. -/
theorem calculation_missing_columns_never_reported :
    (∀ df formula, missingColumns df formula = []) ∧
    identifierTokens "foo + bar" = ["foo", "bar"] ∧
    ((identifierTokens "foo + bar").filter
      (fun c => !(c5Df.cols.contains c))) = ["foo", "bar"] ∧
    applyCalculatedField c5Df c5Calc c5Oracle =
      Except.error
        "Failed to calculate f2: Formula evaluation failed: name \x27foo\x27 is not defined" := by
  refine ⟨missingColumns_eq_nil, by decide, by decide, by decide⟩

/-! ## C10: denylist rejection is a substring test over the whole formula -/

/-- C10: whenever any denylisted token occurs anywhere in the formula text
(case-insensitively), the calculation stage fails with the wrapped unsafe
operation ValidationError, before the evaluation oracle is ever consulted
and regardless of which columns exist. -/
theorem unsafe_token_substring_rejection (df : DataFrame)
    (cs : CalculationSpec) (oracle : EvalOracle)
    (h : dangerousCheck cs.formula = true) :
    applyCalculatedField df cs oracle =
      Except.error ("Failed to calculate " ++ cs.field_name ++
        ": " ++ "Formula evaluation failed: Unsafe operation detected in formula") := by
  unfold applyCalculatedField safeCalculate
  simp [missingColumns_eq_nil, h]

/-- Witness for C10: the formula profile * 2 references only the existing
column profile, yet is rejected because profile contains file. -/
theorem unsafe_token_substring_rejection_witness :
    dangerousCheck c10Calc.formula = true ∧
    c10Df.cols.contains "profile" = true ∧
    applyCalculatedField c10Df c10Calc c10Oracle =
      Except.error ("Failed to calculate " ++ c10Calc.field_name ++
        ": " ++ "Formula evaluation failed: Unsafe operation detected in formula") :=
  ⟨by decide, by decide,
    unsafe_token_substring_rejection c10Df c10Calc c10Oracle (by decide)⟩

/-! ## C8: the count branch overwrites y unconditionally -/

/-- Counterexample to C8: with aggregation count, a non-empty grouping key
and the caller-supplied y = units, the stage rewrites y to count instead of
leaving it unchanged. -/
theorem count_preserves_caller_y_counterexample :
    c8Spec.y = some "units" ∧
    ((applyEnhancedAggregation c8Df c8Spec).2).y = some "count" := by
  exact ⟨by decide, by decide⟩

/-- C8 (amended): when aggregation is count and the resolved grouping key is
non-empty, the stage always sets y to count — also overwriting a
caller-supplied y — and modifies no other field of the spec. -/
theorem count_overwrites_y (df : DataFrame) (spec : ChartSpec)
    (hagg : spec.aggregation = "count")
    (hg : (aggGroupCols df spec).isEmpty = false) :
    ((applyEnhancedAggregation df spec).2).y = some "count" ∧
    ((applyEnhancedAggregation df spec).2).chart_type = spec.chart_type ∧
    ((applyEnhancedAggregation df spec).2).x = spec.x ∧
    ((applyEnhancedAggregation df spec).2).aggregation = spec.aggregation ∧
    ((applyEnhancedAggregation df spec).2).group_by = spec.group_by ∧
    ((applyEnhancedAggregation df spec).2).calculation = spec.calculation ∧
    ((applyEnhancedAggregation df spec).2).filters = spec.filters := by
  unfold applyEnhancedAggregation
  simp [hagg, hg]

/-- Characterization of the validator once every referenced column
resolves: only the scatter and pie y-kind rules can fail. -/
lemma validator_cases (spec : ChartSpec) (df : DataFrame)
    (hx : badX spec df = false) (hy : badY spec df = false)
    (hg : (invalidGroups spec df).isEmpty = true) :
    validateEnhancedChartSpec spec df =
      (if spec.chart_type = "scatter" ∧ yNonNumeric spec df = true then
        ChartValidationResult.mkFailure (scatterYMsg ((spec.y).getD "")) []
      else if spec.chart_type = "pie" ∧ yNonNumeric spec df = true then
        ChartValidationResult.mkFailure (pieYMsg ((spec.y).getD "")) []
      else ChartValidationResult.mkSuccess) := by
  by_cases hs : spec.chart_type = "scatter" <;>
    by_cases hp : spec.chart_type = "pie" <;>
    by_cases hyn : yNonNumeric spec df = true <;>
    simp [validateEnhancedChartSpec, hx, hy, hg, hs, hp, hyn]

/-! ## C1: the chart-type rule table -/

/-- Counterexample to C1: region has categorical dtype, yet the validator
returns success for scatter with x=region (the §4.5 table and the scenario
demand a failure citing that x must be numeric). -/
theorem scatter_categorical_x_passes :
    exDfA.isNumericCol "region" = false ∧
    scatterSpecA.chart_type = "scatter" ∧
    scatterSpecA.x = some "region" ∧
    validateEnhancedChartSpec scatterSpecA exDfA =
      ChartValidationResult.mkSuccess := by
  exact ⟨by decide, by decide, by decide, by decide⟩

/-- C1 (amended): with every referenced column present, validation fails
exactly when the chart type is scatter or pie and y has non-numeric dtype;
a categorical scatter x never fails (its suggestion is discarded), and bar
and line have no kind rule.  The failure messages are the must-be-numeric
ones of the source. -/
theorem validator_rule_table (spec : ChartSpec) (df : DataFrame)
    (hx : badX spec df = false) (hy : badY spec df = false)
    (hg : (invalidGroups spec df).isEmpty = true) :
    ((validateEnhancedChartSpec spec df).is_valid = false ↔
      ((spec.chart_type = "scatter" ∨ spec.chart_type = "pie") ∧
        yNonNumeric spec df = true)) ∧
    (spec.chart_type = "scatter" → yNonNumeric spec df = true →
      (validateEnhancedChartSpec spec df).error_message =
        some (scatterYMsg ((spec.y).getD ""))) ∧
    (spec.chart_type = "pie" → yNonNumeric spec df = true →
      (validateEnhancedChartSpec spec df).error_message =
        some (pieYMsg ((spec.y).getD ""))) := by
  rw [validator_cases spec df hx hy hg]
  by_cases hs : spec.chart_type = "scatter" <;>
    by_cases hp : spec.chart_type = "pie" <;>
    by_cases hyn : yNonNumeric spec df = true <;>
    simp [hs, hp, hyn, ChartValidationResult.mkFailure,
      ChartValidationResult.mkSuccess]

/-- Witness for C1: scatter with y=region (categorical) fails with the
scatter must-be-numeric message. -/
def c1wSpec : ChartSpec :=
  { chart_type := "scatter", x := some "units_sold", y := some "region",
    aggregation := "none", group_by := [], calculation := none, filters := [] }

theorem validator_rule_table_witness :
    (validateEnhancedChartSpec c1wSpec exDfA).is_valid = false ∧
    (validateEnhancedChartSpec c1wSpec exDfA).error_message =
      some (scatterYMsg ((c1wSpec.y).getD "")) :=
  ⟨(validator_rule_table c1wSpec exDfA (by decide) (by decide)
      (by decide)).1.mpr ⟨Or.inl rfl, by decide⟩,
    (validator_rule_table c1wSpec exDfA (by decide) (by decide)
      (by decide)).2.1 rfl (by decide)⟩

/-! ## C9: the legacy validate always sees object dtypes -/

/-- C9: validate_chart_spec validates against an empty placeholder frame
whose columns all carry object dtype, so every scatter or pie spec whose
references resolve among the metadata columns and whose y is set fails with
the must-be-numeric message for y, whatever the kind of that column in the
real dataset. -/
theorem legacy_validate_object_dtype (spec : ChartSpec) (md : CSVMetadata)
    (hx : badX spec (dummyDataFrame md) = false)
    (hy : badY spec (dummyDataFrame md) = false)
    (hg : (invalidGroups spec (dummyDataFrame md)).isEmpty = true)
    (hys : (spec.y).isSome = true)
    (hct : spec.chart_type = "scatter" ∨ spec.chart_type = "pie") :
    (validateChartSpec spec md).is_valid = false ∧
    (validateChartSpec spec md).error_message =
      some ((if spec.chart_type = "scatter" then scatterYMsg else pieYMsg)
        ((spec.y).getD "")) := by
  have hyn : yNonNumeric spec (dummyDataFrame md) = true := by
    unfold yNonNumeric DataFrame.isNumericCol dummyDataFrame
    cases hy2 : spec.y with
    | none => rw [hy2] at hys; exact absurd hys (by decide)
    | some y => simp
  unfold validateChartSpec
  rw [validator_cases spec (dummyDataFrame md) hx hy hg]
  rcases hct with h | h <;>
    simp [h, hyn, ChartValidationResult.mkFailure]

/-- Witness for C9: pie with y=units_sold — numeric in the real fixture
frame — is still rejected against the metadata-only dummy frame. -/
theorem legacy_validate_object_dtype_witness :
    (validateChartSpec pieSpecA exMdA).is_valid = false ∧
    (validateChartSpec pieSpecA exMdA).error_message =
      some ((if pieSpecA.chart_type = "scatter" then scatterYMsg else pieYMsg)
        ((pieSpecA.y).getD "")) :=
  legacy_validate_object_dtype pieSpecA exMdA (by decide) (by decide)
    (by decide) (by decide) (Or.inr rfl)

/-- find? returns the first satisfying element: the list splits around the
result with every earlier element failing the predicate. -/
lemma find?_first {α} (p : α → Bool) (l : List α) (a : α)
    (h : l.find? p = some a) :
    p a = true ∧ ∃ l1 l2, l = l1 ++ a :: l2 ∧ ∀ b ∈ l1, p b = false := by
  induction l with
  | nil => simp [List.find?] at h
  | cons c t ih =>
      cases hc : p c with
      | true =>
          rw [List.find?_cons_of_pos _ hc] at h
          injection h with h
          subst h
          exact ⟨hc, [], t, rfl, by intro b hb; simp at hb⟩
      | false =>
          rw [List.find?_cons_of_neg _ (by rw [hc]; exact Bool.false_ne_true)] at h
          rcases ih h with ⟨hacc, l1, l2, heq, hprev⟩
          refine ⟨hacc, c :: l1, l2, by rw [heq, List.cons_append], ?_⟩
          intro b hb
          rcases List.mem_cons.mp hb with hb | hb
          · subst hb
            exact hc
          · exact hprev b hb

/-! ## C7: date-column detection -/

/-- Counterexample to C7: a column whose sample parses generically at
exactly the 70 percent threshold satisfies the acceptance rule of the spec,
yet the code — which demands that the generic parse succeed on every
sampled value and consults no curated format list — rejects it and finds no
date column at all. -/
theorem date_detection_seventy_percent_counterexample :
    specDateAccept c7Df c7Curated c7Gp "d" = true ∧
    findDateColumn c7Df c7Gp = none := by
  exact ⟨by decide, by decide⟩

/-- C7 (amended): a column is accepted exactly when its non-null 10-value
sample is non-empty and the generic date parse succeeds on every sampled
value; the first column in column order passing this test wins; when no
column qualifies the time-grouping stage returns the dataset unchanged and
raises no error. -/
theorem date_detection_first_all_parse (df : DataFrame) (gp : Value → Bool) :
    (∀ c, findDateColumn df gp = some c →
      dateColAccept df gp c = true ∧
      ∃ l1 l2, df.cols = l1 ++ c :: l2 ∧
        ∀ d ∈ l1, dateColAccept df gp d = false) ∧
    (findDateColumn df gp = none →
      (∀ c ∈ df.cols, dateColAccept df gp c = false) ∧
      (∀ spec derive, handleTimeGrouping df spec gp derive = df)) := by
  constructor
  · intro c h
    exact find?_first (dateColAccept df gp) df.cols c h
  · intro h
    constructor
    · intro c hc
      have hnone := List.find?_eq_none.mp h c hc
      exact Bool.eq_false_iff.mpr hnone
    · intro spec derive
      unfold handleTimeGrouping
      cases spec.x with
      | none => rfl
      | some x =>
          by_cases hk : hasPeriodKeyword x = true
          · simp only [hk, if_true]
            rw [show findDateColumn df gp = none from h]
          · simp [hk]

/-- Witness for C7: in the two-column fixture the non-parsing column n is
passed over and d — whose whole sample parses — is the accepted column. -/
theorem date_detection_first_all_parse_witness :
    dateColAccept c7wDf c7Gp "d" = true :=
  ((date_detection_first_all_parse c7wDf c7Gp).1 "d" (by decide)).1

/-! ## C4: JSON safety of the emitted records -/

lemma isJsonSafe_format (v : Value) :
    isJsonSafe (formatValueForJson v) = true := by
  cases v <;> rfl

lemma mem_optField_safe (o : Option String) (r : Row) (p : String × Value)
    (h : p ∈ optField o r) : isJsonSafe p.2 = true := by
  cases o with
  | none => simp [optField] at h
  | some x =>
      by_cases hr : rowHas r x = true
      · simp [optField, hr] at h
        rw [h]
        exact isJsonSafe_format _
      · simp [optField, hr] at h

lemma mem_groupFields_safe (gs : List String) (r : Row) (p : String × Value)
    (h : p ∈ groupFields gs r) : isJsonSafe p.2 = true := by
  rcases List.mem_filterMap.mp h with ⟨g, _, hg⟩
  by_cases hr : rowHas r g = true
  · rw [if_pos hr] at hg
    injection hg with hg
    subst hg
    exact isJsonSafe_format _
  · rw [if_neg hr] at hg
    exact absurd hg (by simp)

lemma allJsonSafe_standard (spec : ChartSpec) (df : DataFrame) :
    allJsonSafe (formatStandardChartData spec df) = true := by
  rw [allJsonSafe, List.all_eq_true]
  intro rec hrec
  rw [List.all_eq_true]
  intro p hp
  rcases List.mem_map.mp hrec with ⟨r, _, rfl⟩
  rcases List.mem_append.mp hp with hp | hp
  · rcases List.mem_append.mp hp with hp | hp
    · exact mem_optField_safe spec.x r p hp
    · exact mem_optField_safe spec.y r p hp
  · exact mem_groupFields_safe spec.group_by r p hp

lemma piePoint_safe (xc yc : String) (r p : Row)
    (h : piePoint xc yc r = Except.ok p) :
    (p.all (fun q => isJsonSafe q.2)) = true := by
  unfold piePoint at h
  by_cases hna : (r.cell yc).isNa = true
  · rw [if_pos hna] at h
    injection h with h
    subst h
    rfl
  · rw [if_neg hna] at h
    cases hpf : pyFloatOfCell? (r.cell yc) with
    | none => rw [hpf] at h; exact absurd h (by simp)
    | some q =>
        rw [hpf] at h
        injection h with h
        subst h
        rfl

lemma mapPiePoints_safe (xc yc : String) (rs out : List Row)
    (h : mapPiePoints xc yc rs = Except.ok out) :
    allJsonSafe out = true := by
  induction rs generalizing out with
  | nil =>
      unfold mapPiePoints at h
      injection h with h
      subst h
      rfl
  | cons r rs ih =>
      unfold mapPiePoints at h
      cases hr : piePoint xc yc r with
      | error e => rw [hr] at h; exact absurd h (by simp)
      | ok p =>
          rw [hr] at h
          cases hrest : mapPiePoints xc yc rs with
          | error e => rw [hrest] at h; exact absurd h (by simp)
          | ok ps =>
              rw [hrest] at h
              injection h with h
              subst h
              simp only [allJsonSafe, List.all_cons, Bool.and_eq_true]
              have hps := ih ps hrest
              simp only [allJsonSafe] at hps
              exact ⟨piePoint_safe xc yc r p hr, hps⟩

/-- C4: whenever the output formatter succeeds, every value of every record
it emits is null, a number, or a string — never a NaN and never a native
timestamp value. -/
theorem chart_data_json_safe (spec : ChartSpec) (df : DataFrame)
    (out : List Row)
    (h : generateChartSpecificData spec df = Except.ok out) :
    allJsonSafe out = true := by
  unfold generateChartSpecificData at h
  by_cases hp : (spec.chart_type == "pie") = true
  · rw [if_pos hp] at h
    unfold formatPieChartData at h
    split at h
    · split at h
      · exact absurd h (by simp)
      · exact mapPiePoints_safe _ _ _ out h
    · injection h with h
      subst h
      rfl
  · rw [if_neg hp] at h
    injection h with h
    subst h
    exact allJsonSafe_standard spec df

/-- The record list the standard formatter emits on the timestamp/NaN
fixture. -/
def c4wOut : List Row :=
  [[("when", Value.vStr "iso-5"), ("amount", Value.vNull),
      ("tag", Value.vStr "a")],
   [("when", Value.vNull), ("amount", Value.vInt 7),
      ("tag", Value.vFloat (mkRat 3 2))]]

/-- Witness for C4: the fixture frame holds a raw timestamp, a NaN and a
float, and the emitted records are all JSON-safe. -/
theorem chart_data_json_safe_witness : allJsonSafe c4wOut = true :=
  chart_data_json_safe c4Spec c4Df c4wOut (by decide)

/-- qAdd agrees with library addition. -/
lemma qAdd_eq_add (a b : Rat) : qAdd a b = a + b := by
  unfold qAdd
  rw [Rat.mkRat_eq_div, Rat.add_def, Rat.normalize_eq_mkRat, Rat.mkRat_eq_div]

/-- qSum agrees with List.sum. -/
lemma qSum_eq_sum (l : List Rat) : qSum l = l.sum := by
  induction l with
  | nil => rfl
  | cons a t ih =>
      simp only [qSum, List.foldr_cons, List.sum_cons]
      rw [qAdd_eq_add]
      simp only [qSum] at ih
      rw [ih]

lemma lookup_filter_ne (r : Row) (c : String) :
    (r.filter (fun p => p.1 ≠ c)).lookup c = none := by
  induction r with
  | nil => rfl
  | cons p t ih =>
      obtain ⟨k, w⟩ := p
      by_cases hp : k = c
      · simp only [List.filter_cons, hp]
        simp only [ne_eq, not_true_eq_false, decide_False, if_false]
        exact ih
      · simp only [List.filter_cons, ne_eq, hp, not_false_eq_true, decide_True,
          if_true, List.lookup]
        have hck : (c == k) = false := by
          simp
          exact fun he => hp he.symm
        rw [hck]
        exact ih

lemma lookup_filter_ne_other (r : Row) (c d : String) (h : d ≠ c) :
    (r.filter (fun p => p.1 ≠ c)).lookup d = r.lookup d := by
  induction r with
  | nil => rfl
  | cons p t ih =>
      obtain ⟨k, w⟩ := p
      by_cases hp : k = c
      · simp only [List.filter_cons, hp, ne_eq, not_true_eq_false, decide_False]
        rw [if_neg Bool.false_ne_true]
        rw [ih]
        have hdc : (d == c) = false := by simp [h]
        simp only [List.lookup, hdc]
      · simp only [List.filter_cons, ne_eq, hp, not_false_eq_true, decide_True,
          if_true, List.lookup]
        cases hc : (d == k)
        · exact ih
        · rfl

lemma lookup_append_none (l1 l2 : Row) (c : String) (h : l1.lookup c = none) :
    (l1 ++ l2).lookup c = l2.lookup c := by
  induction l1 with
  | nil => rfl
  | cons p t ih =>
      obtain ⟨k, w⟩ := p
      simp only [List.lookup] at h
      rw [List.cons_append]
      simp only [List.lookup]
      cases hc : (c == k)
      · rw [hc] at h
        exact ih h
      · rw [hc] at h
        exact absurd h (by simp)

lemma lookup_append_some (l1 l2 : Row) (c : String) (w : Value)
    (h : l1.lookup c = some w) :
    (l1 ++ l2).lookup c = some w := by
  induction l1 with
  | nil => simp [List.lookup] at h
  | cons p t ih =>
      obtain ⟨k, v⟩ := p
      simp only [List.lookup] at h
      rw [List.cons_append]
      simp only [List.lookup]
      cases hc : (c == k)
      · rw [hc] at h
        exact ih h
      · rw [hc] at h
        exact h

lemma cell_setCell_same (r : Row) (c : String) (v : Value) :
    (Row.setCell r c v).cell c = v := by
  unfold Row.setCell Row.cell
  rw [lookup_append_none _ _ _ (lookup_filter_ne r c)]
  simp [List.lookup]

lemma cell_setCell_ne (r : Row) (c d : String) (v : Value) (h : d ≠ c) :
    (Row.setCell r c v).cell d = r.cell d := by
  unfold Row.setCell Row.cell
  cases hl : (r.filter (fun p => p.1 ≠ c)).lookup d with
  | some w =>
      rw [lookup_append_some _ _ _ _ hl]
      rw [lookup_filter_ne_other r c d h] at hl
      rw [hl]
  | none =>
      rw [lookup_append_none _ _ _ hl]
      rw [lookup_filter_ne_other r c d h] at hl
      rw [hl]
      have hdc : (d == c) = false := by simp [h]
      simp only [List.lookup, hdc]

lemma keyOf_setCell (r : Row) (cols : List String) (y : String) (v : Value)
    (h : cols.contains y = false) :
    Row.keyOf (Row.setCell r y v) cols = Row.keyOf r cols := by
  unfold Row.keyOf
  apply List.map_congr_left
  intro c hc
  apply cell_setCell_ne
  intro he
  subst he
  simp at h
  exact h hc

lemma lookup_zip_none (gcols : List String) (k : List Value) (y : String)
    (h : gcols.contains y = false) :
    (gcols.zip k).lookup y = none := by
  induction gcols generalizing k with
  | nil => rfl
  | cons c t ih =>
      cases k with
      | nil => rfl
      | cons v vs =>
          simp at h
          rw [List.zip_cons_cons]
          simp only [List.lookup]
          have hyc : (y == c) = false := by simp [h.1]
          rw [hyc]
          apply ih
          simp [h.2]

/-- Splitting a NaN-skipping sum along two pointwise disjoint predicates. -/
lemma sum_split_disjoint {α : Type} (l : List α) (p q : α → Bool)
    (g : α → Option Rat) (hdisj : ∀ a, p a = true → q a = false) :
    ((l.filter (fun a => p a || q a)).filterMap g).sum
      = ((l.filter p).filterMap g).sum + ((l.filter q).filterMap g).sum := by
  induction l with
  | nil => simp
  | cons a t ih =>
      by_cases hp : p a = true
      · have hq := hdisj a hp
        simp only [List.filter_cons, hp, hq, Bool.true_or]
        cases hg : g a <;>
          (simp [List.filterMap_cons, hg, ih]; try ring)
      · by_cases hq : q a = true
        · simp only [List.filter_cons, hp, hq, Bool.or_true,
            Bool.false_eq_true, if_false, if_true]
          cases hg : g a <;>
            (simp [List.filterMap_cons, hg, ih]; try ring)
        · simp only [List.filter_cons, hp, hq, Bool.or_self,
            Bool.false_eq_true, if_false]
          simp only [Bool.false_eq_true, if_false] at ih ⊢
          exact ih

/-- Summing group sums over a duplicate-free key list equals the sum over
the rows whose key lies in the list. -/
lemma sum_over_keys {α : Type} (rows : List α) (ks : List (List Value))
    (key : α → List Value) (g : α → Option Rat) (hnd : ks.Nodup) :
    ((ks.map (fun k =>
        ((rows.filter (fun r => key r == k)).filterMap g).sum)).sum)
      = ((rows.filter (fun r => ks.contains (key r))).filterMap g).sum := by
  induction ks with
  | nil => simp
  | cons k kt ih =>
      have hk : k ∉ kt := (List.nodup_cons.mp hnd).1
      have hnd2 := (List.nodup_cons.mp hnd).2
      rw [List.map_cons, List.sum_cons, ih hnd2]
      have hdisj : ∀ r, (key r == k) = true → kt.contains (key r) = false := by
        intro r hrk
        have hre : key r = k := beq_iff_eq.mp hrk
        rw [hre]
        simp [hk]
      rw [← sum_split_disjoint rows (fun r => key r == k)
        (fun r => kt.contains (key r)) g hdisj]
      rfl

/-- The in-place numeric coercion of the target column preserves its
NaN-skipping sum. -/
lemma colSum_coerce (df : DataFrame) (y : String) :
    colSum (coerceColNumeric df y) y = colSum df y := by
  unfold colSum coerceColNumeric
  rw [qSum_eq_sum, qSum_eq_sum]
  simp only [List.filterMap_map]
  apply congrArg
  apply List.filterMap_congr
  intro r _
  simp only [Function.comp]
  rw [cell_setCell_same]
  cases hq : toNumeric (r.cell y) <;> simp [toNumeric, hq]

/-- Sum conservation of the grouped sum reduction over a frame whose keys
are all valid and do not involve the target column. -/
lemma colSum_numericAggregate (df2 : DataFrame) (gcols : List String)
    (y : String) (hgy : gcols.contains y = false)
    (hvalid : ∀ r ∈ df2.rows, keyIsValid (r.keyOf gcols) = true) :
    colSum (numericAggregate df2 gcols y "sum") y = colSum df2 y := by
  have hR : groupedRows df2.rows gcols = df2.rows := by
    apply List.filter_eq_self.mpr
    intro r hr
    exact hvalid r hr
  have hcell : ∀ k,
      Row.cell (gcols.zip k ++
        [(y, aggApply "sum" (groupNumericVals df2.rows gcols y k))]) y
      = aggApply "sum" (groupNumericVals df2.rows gcols y k) := by
    intro k
    unfold Row.cell
    rw [lookup_append_none _ _ _ (lookup_zip_none gcols k y hgy)]
    simp [List.lookup]
  unfold colSum numericAggregate
  rw [qSum_eq_sum, qSum_eq_sum]
  rw [List.filterMap_map]
  have hstep : List.filterMap
      ((fun r => toNumeric (Row.cell r y)) ∘ (fun k =>
        gcols.zip k ++
          [(y, aggApply "sum" (groupNumericVals df2.rows gcols y k))]))
      (groupKeys df2.rows gcols)
      = List.map (fun k => qSum (groupNumericVals df2.rows gcols y k))
        (groupKeys df2.rows gcols) := by
    rw [show (fun k => qSum (groupNumericVals df2.rows gcols y k))
        = (fun k => (fun k2 => qSum (groupNumericVals df2.rows gcols y k2)) k)
      from rfl]
    rw [← List.filterMap_eq_map]
    apply List.filterMap_congr
    intro k _
    simp only [Function.comp]
    rw [hcell k]
    rfl
  rw [hstep]
  have hmap : List.map (fun k => qSum (groupNumericVals df2.rows gcols y k))
      (groupKeys df2.rows gcols)
      = List.map (fun k => (groupNumericVals df2.rows gcols y k).sum)
        (groupKeys df2.rows gcols) := by
    apply List.map_congr_left
    intro k _
    exact qSum_eq_sum _
  rw [hmap]
  unfold groupNumericVals rowsOfKey
  rw [hR]
  unfold groupKeys
  rw [hR]
  rw [sum_over_keys df2.rows ((df2.rows.map (fun r => Row.keyOf r gcols)).dedup)
    (fun r => Row.keyOf r gcols) (fun r => toNumeric (Row.cell r y))
    (List.nodup_dedup _)]
  have hfs : List.filter (fun r =>
      ((df2.rows.map (fun r => Row.keyOf r gcols)).dedup).contains
        (Row.keyOf r gcols)) df2.rows = df2.rows := by
    apply List.filter_eq_self.mpr
    intro r hr
    have hmem : Row.keyOf r gcols ∈
        (df2.rows.map (fun r => Row.keyOf r gcols)).dedup :=
      List.mem_dedup.mpr (List.mem_map_of_mem _ hr)
    simp [hmem]
  rw [hfs]

/-! ## C6: aggregation sum conservation -/

/-- Counterexample to C6: a frame whose grouping key is null in one row; the
target column is numeric in every row, yet pandas groupby drops the
null-keyed row, so the grouped total (3) differs from the column total (8). -/
theorem aggregation_drops_null_keys :
    (∀ r ∈ c6Df.rows, ((r.cell "y").asRat?).isSome = true) ∧
    colSum c6Df "y" = 8 ∧
    colSum (applyEnhancedAggregation c6Df c6Spec).1 "y" = 3 := by
  exact ⟨by decide, by decide, by decide⟩

/-- C6 (amended): with no filters applied, if the target column y is numeric
in every row AND every row carries a non-missing grouping key, summing the
per-group sums of the sum aggregation equals summing the ungrouped column;
the extra key hypothesis is forced because groupby silently drops rows with
missing keys. -/
theorem aggregation_sum_conservation (df : DataFrame) (spec : ChartSpec)
    (y : String)
    (hagg : spec.aggregation = "sum")
    (hy : spec.y = some y)
    (hcol : df.cols.contains y = true)
    (_hnum : ∀ r ∈ df.rows, ((r.cell y).asRat?).isSome = true)
    (hkeys : ∀ r ∈ df.rows,
      keyIsValid (r.keyOf (aggGroupCols df spec)) = true) :
    colSum (applyEnhancedAggregation df spec).1 y = colSum df y := by
  unfold applyEnhancedAggregation
  rw [hagg, hy]
  simp only [show (("sum" : String) == "none") = false from by decide,
    show (("sum" : String) == "count") = false from by decide,
    Bool.false_and, Bool.false_eq_true, if_false, hcol, if_true]
  by_cases hge : (aggGroupCols df spec).isEmpty = true
  · simp only [hge, if_true]
  · simp only [hge, Bool.false_eq_true, if_false]
    by_cases hgy : (aggGroupCols df spec).contains y = true
    · simp only [hgy, if_true]
      exact colSum_coerce df y
    · have hgy2 : (aggGroupCols df spec).contains y = false :=
        Bool.eq_false_iff.mpr hgy
      simp only [hgy2, Bool.false_eq_true, if_false]
      rw [← colSum_coerce df y]
      apply colSum_numericAggregate _ _ _ hgy2
      intro r2 hr2
      rcases List.mem_map.mp hr2 with ⟨r, hr, rfl⟩
      rw [keyOf_setCell r _ y _ hgy2]
      exact hkeys r hr

/-- Witness for C6 on a three-row frame with complete keys: the grouped
total equals the ungrouped total. -/
theorem aggregation_sum_conservation_witness :
    colSum (applyEnhancedAggregation c6wDf c6Spec).1 "y" = colSum c6wDf "y" :=
  aggregation_sum_conservation c6wDf c6Spec "y" rfl rfl (by decide)
    (by decide) (by decide)

lemma toNumeric_isSome_of_asRat (v : Value) (h : (v.asRat?).isSome = true) :
    (toNumeric v).isSome = true := by
  cases v <;> simp [Value.asRat?, toNumeric] at h ⊢

/-- Under all-numeric y cells, the NaN-dropping step of nlargest keeps every
index-tagged row. -/
lemma enum_numeric_filter (df : DataFrame) (yc : String)
    (hnum : ∀ r ∈ df.rows, ((Row.cell r yc).asRat?).isSome = true) :
    df.rows.enum.filter (fun p => (toNumeric (Row.cell p.2 yc)).isSome)
      = df.rows.enum := by
  apply List.filter_eq_self.mpr
  intro p hp
  have h2 : p.2 ∈ df.rows := by
    have h3 := List.mem_map_of_mem Prod.snd hp
    rw [List.enum_map_snd] at h3
    exact h3
  exact toNumeric_isSome_of_asRat _ (hnum p.2 h2)

/-- Complement split of a NaN-skipping sum. -/
lemma sum_split_compl {α : Type} (l : List α) (p : α → Bool)
    (g : α → Option Rat) :
    ((l.filter p).filterMap g).sum
      + ((l.filter (fun a => !(p a))).filterMap g).sum
      = (l.filterMap g).sum := by
  have h := sum_split_disjoint l p (fun a => !(p a)) g
    (by intro a ha; simp [ha])
  rw [List.filter_eq_self.mpr (fun a _ => by simp [Bool.or_not_self])] at h
  exact h.symm

/-- Filtering a first-component-duplicate-free list for membership of the
first component among those of its n-prefix returns exactly the n-prefix. -/
lemma filter_fst_mem_prefix {β α : Type} [DecidableEq β]
    (t d : List (β × α)) (hnd : ((t ++ d).map Prod.fst).Nodup) :
    (t ++ d).filter (fun p => (t.map Prod.fst).contains p.1) = t := by
  rw [List.filter_append]
  rw [List.map_append] at hnd
  have hdisj := (List.nodup_append.mp hnd).2.2
  have h1 : t.filter (fun p => (t.map Prod.fst).contains p.1) = t := by
    apply List.filter_eq_self.mpr
    intro p hp
    have hm : p.1 ∈ t.map Prod.fst := List.mem_map_of_mem _ hp
    simp [hm]
  have h2 : d.filter (fun p => (t.map Prod.fst).contains p.1) = [] := by
    apply List.filter_eq_nil_iff.mpr
    intro p hp
    have hpd : p.1 ∈ d.map Prod.fst := List.mem_map_of_mem _ hp
    intro hc
    have hpt : p.1 ∈ t.map Prod.fst := by
      simp at hc ⊢
      exact hc
    exact hdisj hpt hpd
  rw [h1, h2, List.append_nil]

/-- Mass split of a stable-sort prefix against its complement, for tag-wise
duplicate-free lists. -/
lemma take_mass_core (yc : String) (E : List (Nat × Row)) (n : Nat)
    (hnd : (E.map Prod.fst).Nodup) (g : Nat × Row → Option Rat) :
    (((List.insertionSort (PieRel yc) E).take n).filterMap g).sum
      + ((E.filter (fun p =>
          !((((List.insertionSort (PieRel yc) E).take n).map
            Prod.fst).contains p.1))).filterMap g).sum
      = (E.filterMap g).sum := by
  have hperm : List.Perm (List.insertionSort (PieRel yc) E) E :=
    List.perm_insertionSort _ _
  have hndS : ((List.insertionSort (PieRel yc) E).map Prod.fst).Nodup :=
    ((hperm.map Prod.fst).nodup_iff).mpr hnd
  have hfilter : (List.insertionSort (PieRel yc) E).filter (fun p =>
      ((((List.insertionSort (PieRel yc) E).take n).map
        Prod.fst)).contains p.1)
      = (List.insertionSort (PieRel yc) E).take n := by
    have hsplit := filter_fst_mem_prefix
      ((List.insertionSort (PieRel yc) E).take n)
      ((List.insertionSort (PieRel yc) E).drop n)
      (by rw [List.take_append_drop]; exact hndS)
    rw [List.take_append_drop] at hsplit
    exact hsplit
  have hsum_top : ((((List.insertionSort (PieRel yc) E).take n)).filterMap g).sum
      = ((E.filter (fun p =>
          (((List.insertionSort (PieRel yc) E).take n).map
            Prod.fst).contains p.1)).filterMap g).sum := by
    conv_lhs => rw [← hfilter]
    exact ((hperm.filter _).filterMap g).sum_eq
  rw [hsum_top]
  exact sum_split_compl E _ g

/-- Mass conservation: the kept sum plus the excluded sum is the column sum. -/
lemma pie_mass (df : DataFrame) (yc : String)
    (hnum : ∀ r ∈ df.rows, ((Row.cell r yc).asRat?).isSome = true) :
    pieTopSum df yc + pieExcludedSum df yc = colSum df yc := by
  unfold pieTopSum pieExcludedSum pieExcluded pieTop nlargestIdx colSum
  rw [qSum_eq_sum, qSum_eq_sum, qSum_eq_sum]
  rw [enum_numeric_filter df yc hnum]
  have hrows : List.filterMap (fun r => toNumeric (Row.cell r yc)) df.rows
      = List.filterMap ((fun r => toNumeric (Row.cell r yc)) ∘ Prod.snd)
        df.rows.enum := by
    conv_lhs => rw [← List.enum_map_snd df.rows]
    rw [List.filterMap_map]
  rw [hrows]
  have hnd : (df.rows.enum.map Prod.fst).Nodup := by
    rw [List.enum_map_fst]
    exact List.nodup_range _
  exact take_mass_core yc df.rows.enum (maxCategories - 1) hnd _

/-- Every kept row dominates every excluded row in the sort key. -/
lemma pie_dominance (df : DataFrame) (yc : String)
    (hnum : ∀ r ∈ df.rows, ((Row.cell r yc).asRat?).isSome = true) :
    ∀ t ∈ pieTop df yc, ∀ e ∈ pieExcluded df yc,
      pieYVal yc e ≤ pieYVal yc t := by
  intro t ht e he
  unfold pieTop nlargestIdx at ht
  rw [enum_numeric_filter df yc hnum] at ht
  unfold pieExcluded pieTop nlargestIdx at he
  rw [enum_numeric_filter df yc hnum] at he
  have hperm : List.Perm (List.insertionSort (PieRel yc) df.rows.enum)
      df.rows.enum :=
    List.perm_insertionSort _ _
  have hsorted : List.Sorted (PieRel yc)
      (List.insertionSort (PieRel yc) df.rows.enum) :=
    List.sorted_insertionSort _ _
  have heE : e ∈ df.rows.enum := (List.mem_filter.mp he).1
  have hnotin := (List.mem_filter.mp he).2
  have heS : e ∈ List.insertionSort (PieRel yc) df.rows.enum :=
    (hperm.mem_iff).mpr heE
  rcases List.mem_append.mp
      ((List.take_append_drop (maxCategories - 1)
        (List.insertionSort (PieRel yc) df.rows.enum)) ▸ heS) with hin | hdrop
  · exfalso
    have hc : ((((List.insertionSort (PieRel yc) df.rows.enum).take
        (maxCategories - 1)).map Prod.fst)).contains e.1 = true := by
      have hm := List.mem_map_of_mem Prod.fst hin
      exact List.elem_iff.mpr hm
    rw [hc] at hnotin
    exact Bool.false_ne_true hnotin
  · have hpw := hsorted
    rw [← List.take_append_drop (maxCategories - 1)
      (List.insertionSort (PieRel yc) df.rows.enum)] at hpw
    have hcross := (List.pairwise_append.mp hpw).2.2
    rcases hcross t ht e hdrop with h | ⟨h, _⟩
    · exact le_of_lt h
    · exact le_of_eq h.symm

/-- The kept prefix has exactly maxCategories - 1 rows when the frame is
over the limit and y is numeric per row. -/
lemma pieTop_length (df : DataFrame) (yc : String)
    (hnum : ∀ r ∈ df.rows, ((Row.cell r yc).asRat?).isSome = true)
    (hlen : df.rows.length > maxCategories) :
    (pieTop df yc).length = maxCategories - 1 := by
  unfold pieTop nlargestIdx
  rw [enum_numeric_filter df yc hnum]
  rw [List.length_take, List.length_insertionSort, List.enum_length]
  unfold maxCategories at hlen ⊢
  omega

/-- The limiting step under the over-limit numeric-dtype hypotheses. -/
lemma pieLimitRows_eq (df : DataFrame) (xc yc : String)
    (hdtype : df.isNumericCol yc = true)
    (hlen : df.rows.length > maxCategories) :
    pieLimitRows df xc yc = Except.ok ((pieTop df yc).map Prod.snd ++
      (if 0 < pieExcludedSum df yc then
        [othersRow xc yc (pieExcludedSum df yc)] else [])) := by
  unfold pieLimitRows
  rw [if_pos hlen, if_pos hdtype]
  by_cases hs : 0 < pieExcludedSum df yc
  · rw [if_pos hs, if_pos hs]
  · rw [if_neg hs, if_neg hs, List.append_nil]

lemma piePoint_ok_of_numeric (xc yc : String) (r : Row)
    (h : ((Row.cell r yc).asRat?).isSome = true) :
    ∃ p, piePoint xc yc r = Except.ok p := by
  unfold piePoint
  cases hv : Row.cell r yc with
  | vInt n => simp [Value.isNa, pyFloatOfCell?]
  | vFloat q => simp [Value.isNa, pyFloatOfCell?]
  | vNull => rw [hv] at h; simp [Value.asRat?] at h
  | vNaN => rw [hv] at h; simp [Value.asRat?] at h
  | vTimestamp t => rw [hv] at h; simp [Value.asRat?] at h
  | vStr s => rw [hv] at h; simp [Value.asRat?] at h

lemma mapPiePoints_ok (xc yc : String) (rs : List Row)
    (h : ∀ r ∈ rs, ∃ p, piePoint xc yc r = Except.ok p) :
    ∃ out, mapPiePoints xc yc rs = Except.ok out ∧ out.length = rs.length := by
  induction rs with
  | nil => exact ⟨[], rfl, rfl⟩
  | cons r t ih =>
      rcases h r (List.mem_cons_self r t) with ⟨p, hp⟩
      rcases ih (fun r2 hr2 => h r2 (List.mem_cons_of_mem _ hr2)) with
        ⟨out, hout, hlen⟩
      refine ⟨p :: out, ?_, by simp [hlen]⟩
      unfold mapPiePoints
      rw [hp, hout]

lemma pieTop_rows_numeric (df : DataFrame) (yc : String)
    (hnum : ∀ r ∈ df.rows, ((Row.cell r yc).asRat?).isSome = true) :
    ∀ t ∈ pieTop df yc, ((Row.cell t.2 yc).asRat?).isSome = true := by
  intro t ht
  unfold pieTop nlargestIdx at ht
  have h1 := List.take_subset _ _ ht
  have h2 := ((List.perm_insertionSort (PieRel yc) _).mem_iff).mp h1
  have h3 := List.mem_of_mem_filter h2
  have h4 : t.2 ∈ df.rows := by
    have h5 := List.mem_map_of_mem Prod.snd h3
    rwa [List.enum_map_snd] at h5
  exact hnum t.2 h4

/-! ## C2: pie category limiting -/

/-- Counterexample to C2: 51 rows whose two excluded rows sum to -3; the sum
is nonzero, yet the Others record is omitted (the source drops it whenever
the sum is not strictly positive, not only when it is zero). -/
theorem pie_others_negative_sum_omitted :
    c2Df.rows.length = 51 ∧
    pieExcludedSum c2Df "val" = -3 ∧
    pieLimitRows c2Df "cat" "val" =
      Except.ok ((pieTop c2Df "val").map Prod.snd) ∧
    ((pieTop c2Df "val").map Prod.snd).length = 49 := by
  exact ⟨by decide, by decide, by decide, by decide⟩

/-- C2 (amended): over the 50-category limit with x and y set and numeric y,
the formatter keeps the top maxCategories - 1 rows by y (every kept row's y
dominates every excluded row's y), the Others record carries exactly the sum
of the excluded rows' y and is present exactly when that sum is positive
(omitted when it is zero or negative), the kept and excluded sums together
give the whole column sum, and the emitted record list has at most
maxCategories entries. -/
theorem pie_limit_top_and_others (spec : ChartSpec) (df : DataFrame)
    (xc yc : String)
    (hx : spec.x = some xc) (hy : spec.y = some yc)
    (hdtype : df.isNumericCol yc = true)
    (hnum : ∀ r ∈ df.rows, ((Row.cell r yc).asRat?).isSome = true)
    (hlen : df.rows.length > maxCategories) :
    (pieTop df yc).length = maxCategories - 1 ∧
    pieTopSum df yc + pieExcludedSum df yc = colSum df yc ∧
    (∀ t ∈ pieTop df yc, ∀ e ∈ pieExcluded df yc,
      pieYVal yc e ≤ pieYVal yc t) ∧
    pieLimitRows df xc yc = Except.ok ((pieTop df yc).map Prod.snd ++
      (if 0 < pieExcludedSum df yc then
        [othersRow xc yc (pieExcludedSum df yc)] else [])) ∧
    (∃ out, formatPieChartData spec df = Except.ok out ∧
      out.length ≤ maxCategories) := by
  refine ⟨pieTop_length df yc hnum hlen, pie_mass df yc hnum,
    pie_dominance df yc hnum, pieLimitRows_eq df xc yc hdtype hlen, ?_⟩
  have hall : ∀ r ∈ ((pieTop df yc).map Prod.snd ++
      (if 0 < pieExcludedSum df yc then
        [othersRow xc yc (pieExcludedSum df yc)] else [])),
      ∃ p, piePoint xc yc r = Except.ok p := by
    intro r hr
    rcases List.mem_append.mp hr with hr | hr
    · rcases List.mem_map.mp hr with ⟨t, ht, rfl⟩
      exact piePoint_ok_of_numeric xc yc t.2 (pieTop_rows_numeric df yc hnum t ht)
    · by_cases hs : 0 < pieExcludedSum df yc
      · rw [if_pos hs] at hr
        rcases List.mem_singleton.mp hr with rfl
        apply piePoint_ok_of_numeric
        rw [show Row.cell (othersRow xc yc (pieExcludedSum df yc)) yc
            = Value.vFloat (pieExcludedSum df yc) from cell_setCell_same _ _ _]
        rfl
      · rw [if_neg hs] at hr
        simp at hr
  rcases mapPiePoints_ok xc yc _ hall with ⟨out, hout, hlen2⟩
  refine ⟨out, ?_, ?_⟩
  · unfold formatPieChartData
    rw [hx, hy]
    simp only []
    rw [pieLimitRows_eq df xc yc hdtype hlen]
    exact hout
  · rw [hlen2, List.length_append, List.length_map,
      pieTop_length df yc hnum hlen]
    by_cases hs : 0 < pieExcludedSum df yc
    · rw [if_pos hs]
      simp [maxCategories]
    · rw [if_neg hs]
      simp [maxCategories]

/-- Witness for C2: 52 rows with a positive excluded sum — the Others row is
appended after the 49 kept rows. -/
theorem pie_limit_top_and_others_witness :
    pieLimitRows c2wDf "cat" "val" =
      Except.ok ((pieTop c2wDf "val").map Prod.snd ++
        (if 0 < pieExcludedSum c2wDf "val" then
          [othersRow "cat" "val" (pieExcludedSum c2wDf "val")] else [])) :=
  (pie_limit_top_and_others c2Spec c2wDf "cat" "val" rfl rfl (by decide)
    (by decide) (by decide)).2.2.2.1

/-- Witness for C8 at the count fixture. -/
theorem count_overwrites_y_witness :
    ((applyEnhancedAggregation c8Df c8Spec).2).y = some "count" ∧
    ((applyEnhancedAggregation c8Df c8Spec).2).chart_type = c8Spec.chart_type ∧
    ((applyEnhancedAggregation c8Df c8Spec).2).x = c8Spec.x ∧
    ((applyEnhancedAggregation c8Df c8Spec).2).aggregation = c8Spec.aggregation ∧
    ((applyEnhancedAggregation c8Df c8Spec).2).group_by = c8Spec.group_by ∧
    ((applyEnhancedAggregation c8Df c8Spec).2).calculation = c8Spec.calculation ∧
    ((applyEnhancedAggregation c8Df c8Spec).2).filters = c8Spec.filters :=
  count_overwrites_y c8Df c8Spec (by decide) (by decide)

end DataSights
